import Mathlib

/-
Shallow embedding of the plan-tree explanation engine of src/explain.py
(repository SC3020_Project2).

Modelling conventions:
- A raw JSON plan object is `PlanJson`: a record `Attrs` of the optional
  scalar fields the code reads, plus the optional `Plans` list of sub-plan
  objects.  A missing dictionary key is `none`.
- Python floats are modelled as rationals.  Every multiplier the code uses
  (3, 1.5, 0.5, 0.1, division by 3) is exact on the inputs the claims
  exercise, so no rounding behaviour is lost.
- Python string rendering of a number in an f-string is abstracted by
  `pyShowQ := toString`; rendering of a possibly-missing value is
  `pyShowOptQ` / `pyShowOptStr`, which print the literal text None for a
  missing value, exactly as a Python f-string prints the value None.
- Python exceptions are modelled by `Except PyError`; the psycopg2 cursor
  is abstracted as a `Catalog` of lookup functions.  A lookup against the
  system catalogs pg_class / pg_stat_user_indexes cannot fail at the SQL
  level, so those return `Option row` (the result of fetchone); the ad-hoc
  SQL the code issues against user tables may fail at the database, so
  those catalog fields return `Except PyError ...`.
- The built tree pairs each raw json object with its constructed children;
  sibling lists are encoded by the single inductive `PForest` so that all
  tree recursion is structural and kernel-evaluable.
-/

namespace Qep

/-- Exceptions the Python code can raise or receive from psycopg2, by
category: psycopg2.DatabaseError, and the builtin KeyError, TypeError and
IndexError. -/
inductive PyError where
  | dbError (msg : String)
  | keyError (key : String)
  | typeError (msg : String)
  | indexError (msg : String)
deriving DecidableEq, Repr

instance {α : Type} [DecidableEq α] : DecidableEq (Except PyError α) :=
  fun a b =>
    match a, b with
    | .ok x, .ok y =>
      if h : x = y then .isTrue (congrArg Except.ok h)
      else .isFalse (fun hc => h (Except.ok.inj hc))
    | .error x, .error y =>
      if h : x = y then .isTrue (congrArg Except.error h)
      else .isFalse (fun hc => h (Except.error.inj hc))
    | .ok _, .error _ => .isFalse (fun hc => Except.noConfusion hc)
    | .error _, .ok _ => .isFalse (fun hc => Except.noConfusion hc)

/-- The optional scalar attributes of one plan-json object that the code
reads with dictionary access.  A key absent from the dictionary is `none`. -/
structure Attrs where
  nodeType : Option String
  startupCost : Option ℚ
  totalCost : Option ℚ
  planRows : Option ℚ
  planWidth : Option ℚ
  relationName : Option String
  indexName : Option String
  sortMethod : Option String
  strategy : Option String
  joinFilter : Option String
  hashCond : Option String
  mergeKey : Option String

/-- One raw plan-json object: its scalar attributes and the optional
ordered list stored under the key Plans. -/
inductive PlanJson where
  | mk (attrs : Attrs) (plans : Option (List PlanJson))

def PlanJson.attrs : PlanJson → Attrs
  | .mk a _ => a

def PlanJson.plans : PlanJson → Option (List PlanJson)
  | .mk _ p => p

def PlanJson.nodeType (j : PlanJson) : Option String := j.attrs.nodeType

def PlanJson.startupCost (j : PlanJson) : Option ℚ := j.attrs.startupCost

def PlanJson.totalCost (j : PlanJson) : Option ℚ := j.attrs.totalCost

def PlanJson.planRows (j : PlanJson) : Option ℚ := j.attrs.planRows

def PlanJson.planWidth (j : PlanJson) : Option ℚ := j.attrs.planWidth

def PlanJson.relationName (j : PlanJson) : Option String := j.attrs.relationName

def PlanJson.indexName (j : PlanJson) : Option String := j.attrs.indexName

def PlanJson.sortMethod (j : PlanJson) : Option String := j.attrs.sortMethod

def PlanJson.strategy (j : PlanJson) : Option String := j.attrs.strategy

def PlanJson.joinFilter (j : PlanJson) : Option String := j.attrs.joinFilter

def PlanJson.hashCond (j : PlanJson) : Option String := j.attrs.hashCond

def PlanJson.mergeKey (j : PlanJson) : Option String := j.attrs.mergeKey

/-- The empty Python dictionary the join nodes substitute for a missing
child plan. -/
def Attrs.empty : Attrs :=
  ⟨none, none, none, none, none, none, none, none, none, none, none, none⟩

def PlanJson.empty : PlanJson := .mk Attrs.empty none

/-- A forest of constructed nodes: each node keeps its raw json object
together with its constructed children (mirroring Node.node_json and
Node.children); siblings are chained through `rest`. -/
inductive PForest where
  | nil : PForest
  | cons (json : PlanJson) (children : PForest) (rest : PForest) : PForest

/-- The list comprehension of AppendNode.fetch_stats and
MergeAppendNode.fetch_stats over self.children:
child.node_json.get applied to Total Cost with default 0, per sibling. -/
def PForest.childTotalCosts : PForest → List ℚ
  | .nil => []
  | .cons json _ rest => (json.totalCost.getD 0) :: rest.childTotalCosts

/-- len of a sibling chain, as len of self.children. -/
def PForest.length : PForest → ℕ
  | .nil => 0
  | .cons _ _ rest => rest.length + 1

/-- Python truthiness of self.children: an empty list is falsy. -/
def PForest.isNil : PForest → Bool
  | .nil => true
  | .cons _ _ _ => false

/-- Python f-string rendering of a number (abstraction of the float repr:
digit fidelity is not claim-relevant, structure of the output is). -/
def pyShowQ (q : ℚ) : String := toString q

/-- Python f-string rendering of a value that may be None. -/
def pyShowOptQ : Option ℚ → String
  | none => "None"
  | some q => pyShowQ q

/-- Python f-string rendering of an optional string (None prints as None). -/
def pyShowOptStr : Option String → String
  | none => "None"
  | some s => s

/-- The indentation prefix: four spaces repeated depth times. -/
def indentOf (depth : ℕ) : String := String.join (List.replicate depth "    ")

/-- Abstraction of the psycopg2 cursor: every SQL query the node classes
issue, as a lookup function.  pg_class rows are (reltuples, relpages);
pg_stat_user_indexes rows are (idx_scan, idx_tup_read).  The queries that
hit user tables (Aggregate, Group, Unique) or the nonexistent table named
some_table (Incremental Sort, Limit, Materialize) may fail at the database,
hence the Except results there; `Option` is the result of fetchone.
The field distinct_count models the distinct-value capability of the
statistics provider described by the specification; the index-scan code
never consults it, and it is used only to state claim C4. -/
structure Catalog where
  pg_class : String → Option (ℚ × ℚ)
  pg_stat_user_indexes : String → Option (ℚ × ℚ)
  some_table_sort_blocks : Option String → Except PyError (Option (ℚ × ℚ))
  some_table_block_count : Option String → Except PyError (Option ℚ)
  some_table_tuple_count : Option String → Except PyError (Option ℚ)
  agg_counts : String → Except PyError (ℚ × ℚ)
  group_distinct : String → Except PyError ℚ
  group_total : String → Except PyError ℚ
  unique_distinct : String → Except PyError ℚ
  distinct_count : String → String → Option ℚ

/-- SeqScanNode.fetch_stats (src/explain.py lines 64-79).  Guarded by the
truthiness of Relation Name; a missing pg_class row falls through to the
final return of the empty string. -/
def SeqScanNode.fetch_stats (cat : Catalog) (json : PlanJson) (depth : ℕ) :
    Except PyError String :=
  let indent := indentOf depth
  match json.relationName with
  | some table_name =>
    if table_name.isEmpty then .ok "" else
    match cat.pg_class table_name with
    | some stats =>
      let num_pages := stats.2
      let manual_cost := num_pages
      .ok (indent ++ "Table \x27" ++ table_name ++ "\x27 stats: " ++
           pyShowQ stats.1 ++ " rows, " ++ pyShowQ num_pages ++ " pages.\n" ++
           indent ++ "Manual Cost Formula: B(R) = " ++ pyShowQ manual_cost ++ "\n" ++
           indent ++ "Difference Explanation: PostgreSQL factors in parallel CPU processing making in more efficient in estimations.\n")
    | none => .ok ""
  | none => .ok ""

/-- IndexScanNode.fetch_stats (src/explain.py lines 81-98).  Guarded by
the truthiness of both Index Name and Relation Name; manual_cost is the
tuples-read count alone (the comment in the source assumes cost per tuple
read is 1), although the printed formula label reads T(R) / V(R, a). -/
def IndexScanNode.fetch_stats (cat : Catalog) (json : PlanJson) (depth : ℕ) :
    Except PyError String :=
  let indent := indentOf depth
  match json.indexName, json.relationName with
  | some index_name, some table_name =>
    if index_name.isEmpty || table_name.isEmpty then .ok "" else
    match cat.pg_stat_user_indexes index_name with
    | some index_stats =>
      let num_scans := index_stats.1
      let num_tuples_read := index_stats.2
      let manual_cost := num_tuples_read
      .ok (indent ++ "Index \x27" ++ index_name ++ "\x27 on table \x27" ++ table_name ++
           "\x27 stats: scans " ++ pyShowQ num_scans ++ ", tuples read " ++
           pyShowQ num_tuples_read ++ ".\n" ++
           indent ++ "Manual Cost Formula: T(R) / V(R, a) = " ++ pyShowQ manual_cost ++ "\n" ++
           indent ++ "Difference Explaination: PostgreSQL optimizes index scans with cost estimates based on index selectivity, which may not be fully captured here\n")
    | none => .ok ""
  | _, _ => .ok ""

/-- BitmapIndexScanNode.fetch_stats (src/explain.py lines 100-114). -/
def BitmapIndexScanNode.fetch_stats (cat : Catalog) (json : PlanJson) (depth : ℕ) :
    Except PyError String :=
  let indent := indentOf depth
  match json.indexName with
  | some index_name =>
    if index_name.isEmpty then .ok "" else
    match cat.pg_stat_user_indexes index_name with
    | some index_stats =>
      let manual_cost := index_stats.1
      .ok (indent ++ "Index \x27" ++ index_name ++ "\x27 stats: scans " ++
           pyShowQ index_stats.1 ++ ", tuples read " ++ pyShowQ index_stats.2 ++ ".\n" ++
           indent ++ "Manual Cost Formula: Cost is based on number of scans: " ++
           pyShowQ manual_cost ++ "\n" ++
           indent ++ "Differece Explanation: PostgreSQL might optimize this by batching and combining index scans for efficiency, not reflected in this simple model\n")
    | none => .ok ""
  | none => .ok ""

/-- BitmapHeapScanNode.fetch_stats (src/explain.py lines 116-131).  The
source multiplies the page count by the float 0.1; 1/10 is its exact
value as used in the formula. -/
def BitmapHeapScanNode.fetch_stats (cat : Catalog) (json : PlanJson) (depth : ℕ) :
    Except PyError String :=
  let indent := indentOf depth
  match json.relationName with
  | some table_name =>
    if table_name.isEmpty then .ok "" else
    match cat.pg_class table_name with
    | some stats =>
      let num_pages := stats.2
      let manual_cost := num_pages * (1 / 10)
      .ok (indent ++ "Table \x27" ++ table_name ++ "\x27 stats: " ++ pyShowQ stats.1 ++
           " rows, " ++ pyShowQ num_pages ++ " pages.\n" ++
           indent ++ "Manual Cost Formula: Bitmap Heap Scan Cost = Pages * Reduced Cost/Page = " ++
           pyShowQ manual_cost ++ "\n" ++
           indent ++ "Differece Explanation: PostgreSQL execution might use bloom filters or other structures to further reduce page access, not accounted here\n")
    | none => .ok ""
  | none => .ok ""

/-- The body text of NestedLoopJoinNode.fetch_stats given the two
(possibly defaulted-to-empty-dict) child json objects. -/
def NestedLoopJoinNode.render (json : PlanJson) (depth : ℕ)
    (left_child right_child : PlanJson) : String :=
  let indent := indentOf depth
  let left_cost := left_child.totalCost.getD 0
  let right_cost := right_child.totalCost.getD 0
  let manual_cost := left_cost + (left_child.planRows.getD 0 * right_cost)
  indent ++ "Nested Loop Join uses condition: " ++
    (json.joinFilter.getD "No specific join condition reported") ++ "\n" ++
  indent ++ "Manual Cost Formula: Outer Loop Cost + (Outer Loop Rows × Inner Loop Cost) = " ++
    pyShowQ manual_cost ++ "\n" ++
  indent ++ "Difference Explanation: PostgreSQL may optimize nested loop joins by using indexing on the inner relation or caching the inner relation in memory if it is small enough. These optimizations can significantly reduce the actual cost compared to the manual estimation, especially if the inner relation is accessed multiple times.\n" ++
  indent ++ "PostgreSQL also considers the cost of handling tuples that meet the join condition and may benefit from tuple prefetching and other join algorithms when applicable.\n"

/-- NestedLoopJoinNode.fetch_stats (src/explain.py lines 133-146).
The left child is Plans[0] when the key Plans is present (an IndexError
when the list is empty) and the empty dict when absent; the right child is
Plans[1] when the list has more than one element and the empty dict
otherwise. -/
def NestedLoopJoinNode.fetch_stats (json : PlanJson) (depth : ℕ) :
    Except PyError String :=
  match json.plans with
  | none => .ok (NestedLoopJoinNode.render json depth PlanJson.empty PlanJson.empty)
  | some [] => .error (.indexError "list index out of range")
  | some (left_child :: rest) =>
    let right_child := match rest with
      | right :: _ => right
      | [] => PlanJson.empty
    .ok (NestedLoopJoinNode.render json depth left_child right_child)

/-- The manual cost of MergeJoinNode.fetch_stats: the source computes
(left_cost + right_cost) * 1.5, the float 1.5 being exactly 3/2; the two
costs come from the same Plans[0] / Plans[1] access pattern as the nested
loop join. -/
def MergeJoinNode.manual_cost (json : PlanJson) : Except PyError ℚ :=
  match json.plans with
  | none =>
    let left_cost := (PlanJson.empty).totalCost.getD 0
    let right_cost := (PlanJson.empty).totalCost.getD 0
    .ok ((left_cost + right_cost) * (3 / 2))
  | some [] => .error (.indexError "list index out of range")
  | some (left_child :: rest) =>
    let right_child := match rest with
      | right :: _ => right
      | [] => PlanJson.empty
    let left_cost := left_child.totalCost.getD 0
    let right_cost := right_child.totalCost.getD 0
    .ok ((left_cost + right_cost) * (3 / 2))

/-- MergeJoinNode.fetch_stats (src/explain.py lines 148-160). -/
def MergeJoinNode.fetch_stats (json : PlanJson) (depth : ℕ) :
    Except PyError String :=
  let indent := indentOf depth
  match MergeJoinNode.manual_cost json with
  | .error e => .error e
  | .ok manual_cost =>
    .ok (indent ++ "Merge Join on keys: " ++ (json.mergeKey.getD "No merge keys reported") ++ "\n" ++
         indent ++ "Manual Cost Formula: (Sort Cost of Left Side + Sort Cost of Right Side + Merge Cost) = " ++
         pyShowQ manual_cost ++ "\n" ++
         indent ++ "Difference Explanation: PostgreSQL\x27s optimizer might choose this join for its efficiency in certain sorted datasets, a nuance not captured by the simple manual cost.\n")

/-- HashNode.fetch_stats (src/explain.py lines 162-172); 0.5 is exactly
1/2. -/
def HashNode.fetch_stats (json : PlanJson) (depth : ℕ) : Except PyError String :=
  let indent := indentOf depth
  let estimated_rows := json.planRows.getD 0
  let manual_cost := estimated_rows * (1 / 2)
  .ok (indent ++ "Hash operation involves approximately " ++ pyShowQ estimated_rows ++ " rows.\n" ++
       indent ++ "Manual Cost Formula: Hash Cost = Estimated Rows * Cost per row = " ++
       pyShowQ manual_cost ++ "\n" ++
       indent ++ "Difference Explanation: Actual hash costs in PostgreSQL also consider factors such as hash bucket density and memory availability.\n")

/-- The manual cost of HashJoinNode.fetch_stats: unguarded subscripts
node_json with Plans (KeyError when absent), indexes entries 0 and 1
(IndexError when too short) and subscripts each child with Total Cost
(KeyError when absent); the value is 3 times the left child Total Cost
plus 3 times the right child Total Cost. -/
def HashJoinNode.manual_cost (json : PlanJson) : Except PyError ℚ :=
  match json.plans with
  | none => .error (.keyError "Plans")
  | some plans =>
    match plans with
    | [] => .error (.indexError "list index out of range")
    | left_child :: rest =>
      match rest with
      | [] => .error (.indexError "list index out of range")
      | right_child :: _ =>
        match left_child.totalCost with
        | none => .error (.keyError "Total Cost")
        | some left_total =>
          match right_child.totalCost with
          | none => .error (.keyError "Total Cost")
          | some right_total =>
            let left_cost := 3 * left_total
            let right_cost := 3 * right_total
            .ok (left_cost + right_cost)

/-- HashJoinNode.fetch_stats (src/explain.py lines 174-186). -/
def HashJoinNode.fetch_stats (json : PlanJson) (depth : ℕ) :
    Except PyError String :=
  let indent := indentOf depth
  match HashJoinNode.manual_cost json with
  | .error e => .error e
  | .ok manual_cost =>
    .ok (indent ++ "Hash Join uses condition: " ++ (json.hashCond.getD "No hash condition reported") ++ "\n" ++
         indent ++ "Manual Cost Formula: 3(B(R) + B(S)) = " ++ pyShowQ manual_cost ++ "\n" ++
         indent ++ "Difference Explanation: PostgreSQL may optimize hash joins with in-memory hash tables, which can significantly alter the real-world costs, not shown here.\n")

/-- GatherNode.fetch_stats (src/explain.py lines 188-196): sums the
Total Cost (default 0) of the raw sub-plan objects. -/
def GatherNode.fetch_stats (json : PlanJson) (depth : ℕ) : Except PyError String :=
  let indent := indentOf depth
  let total_cost := ((json.plans.getD []).map (fun child => child.totalCost.getD 0)).sum
  .ok (indent ++ "Gather node combines the output of child nodes executed by parallel workers.\n" ++
       indent ++ "Manual Cost Formula: Sum of children costs = " ++ pyShowQ total_cost ++ "\n" ++
       indent ++ "Difference Explanation: PostgreSQL\x27s implementation may include additional parallel setup and communication costs.\n")

/-- GatherMergeNode.fetch_stats (src/explain.py lines 198-209).  The
merge cost is len(child_costs) * log2(len(child_costs)) guarded by the
truthiness of child_costs (0 for an empty list); log2 is kept as an
explicit function parameter log2f, so that every statement about the
guarded branch holds for every possible log2 implementation. -/
def GatherMergeNode.fetch_stats (log2f : ℕ → ℚ) (json : PlanJson) (depth : ℕ) :
    Except PyError String :=
  let indent := indentOf depth
  let child_costs := (json.plans.getD []).map (fun child => child.totalCost.getD 0)
  let total_cost := child_costs.sum
  let merge_cost := if child_costs.isEmpty then 0
    else (child_costs.length : ℚ) * log2f child_costs.length
  let total_cost := total_cost + merge_cost
  .ok (indent ++ "Gather Merge combines sorted outputs of parallel workers preserving the order.\n" ++
       indent ++ "Manual Cost Formula: Sum of child costs + Merge cost = " ++ pyShowQ total_cost ++ "\n" ++
       indent ++ "Difference Explanation: PostgreSQL uses a heap that at any instant holds the next tuple from each stream, which can affect performance depending on the size of streams.\n")

/-- The method-keyed multiplier dictionary of SortNode.fetch_stats, with
its default of the identity; division by 3 on rationals is the exact
reading of the float division in the source. -/
def SortNode.method_cost (sort_method : String) : ℚ → ℚ :=
  match sort_method with
  | "external merge" => fun x => x * 3
  | "quicksort" => fun x => x
  | "top-N heapsort" => fun x => x / 3
  | _ => fun x => x

/-- The manual cost of SortNode.fetch_stats: the multiplier selected by
Sort Method (default key string unknown) applied to Total Cost
(default 0). -/
def SortNode.manual_cost (json : PlanJson) : ℚ :=
  SortNode.method_cost (json.sortMethod.getD "unknown") (json.totalCost.getD 0)

/-- SortNode.fetch_stats (src/explain.py lines 211-225).  Note that the
Difference Explanation line is emitted unconditionally. -/
def SortNode.fetch_stats (json : PlanJson) (depth : ℕ) : Except PyError String :=
  let indent := indentOf depth
  let rel_name := json.relationName
  let sort_method := json.sortMethod.getD "unknown"
  let manual_cost := SortNode.manual_cost json
  .ok (indent ++ "Sort on relation: " ++ pyShowOptStr rel_name ++ " using " ++ sort_method ++ ".\n" ++
       indent ++ "Manual Cost Formula: " ++ sort_method ++ " cost = " ++ pyShowQ manual_cost ++ "\n" ++
       indent ++ "Difference Explanation: PostgreSQL may adjust costs based on work memory and actual data size which are not factored into manual calculations.\n")

/-- IncrementalSortNode.fetch_stats (src/explain.py lines 227-241):
queries some_table without checking Relation Name, subscripts the fetched
row without a None check (a TypeError when no row came back). -/
def IncrementalSortNode.fetch_stats (cat : Catalog) (json : PlanJson) (depth : ℕ) :
    Except PyError String :=
  let indent := indentOf depth
  let relation_name := json.relationName
  match cat.some_table_sort_blocks relation_name with
  | .error e => .error e
  | .ok none => .error (.typeError "\x27NoneType\x27 object is not subscriptable")
  | .ok (some data) =>
    let total_blocks := data.1
    let estimated_sorted_blocks := data.2
    let manual_cost := total_blocks - estimated_sorted_blocks
    .ok (indent ++ "Incremental sort on " ++ pyShowOptStr relation_name ++ " with partially ordered input.\n" ++
         indent ++ "Manual Cost Formula: B(rel) - Estimated Sorted Blocks = " ++ pyShowQ manual_cost ++ "\n" ++
         indent ++ "Difference Explanation: PostgreSQL uses different calculations for the number of groups with equal presorted keys.\n")

/-- LimitNode.fetch_stats (src/explain.py lines 243-255). -/
def LimitNode.fetch_stats (cat : Catalog) (json : PlanJson) (depth : ℕ) :
    Except PyError String :=
  let indent := indentOf depth
  let relation_name := json.relationName
  match cat.some_table_block_count relation_name with
  | .error e => .error e
  | .ok none => .error (.typeError "\x27NoneType\x27 object is not subscriptable")
  | .ok (some block_count) =>
    let manual_cost := block_count
    .ok (indent ++ "Limit operation on " ++ pyShowOptStr relation_name ++ ".\n" ++
         indent ++ "Manual Cost Formula: B(rel) = " ++ pyShowQ manual_cost ++ "\n" ++
         indent ++ "Difference Explanation: In reality, PostgreSQL will process fewer rows due to the limit clause.\n")

/-- MaterializeNode.fetch_stats (src/explain.py lines 257-269). -/
def MaterializeNode.fetch_stats (cat : Catalog) (json : PlanJson) (depth : ℕ) :
    Except PyError String :=
  let indent := indentOf depth
  let relation_name := json.relationName
  match cat.some_table_tuple_count relation_name with
  | .error e => .error e
  | .ok none => .error (.typeError "\x27NoneType\x27 object is not subscriptable")
  | .ok (some tuple_count) =>
    let manual_cost := tuple_count * 2
    .ok (indent ++ "Materialize intermediate results for " ++ pyShowOptStr relation_name ++ ".\n" ++
         indent ++ "Manual Cost Formula: T(rel) * 2 = " ++ pyShowQ manual_cost ++ "\n" ++
         indent ++ "Difference Explanation: PostgreSQL includes CPU and I/O costs for writing to and reading from temporary storage.\n")

/-- MemoizeNode.fetch_stats (src/explain.py lines 271-278). -/
def MemoizeNode.fetch_stats (depth : ℕ) : Except PyError String :=
  let indent := indentOf depth
  .ok (indent ++ "Memoize reuses results of expensive suboperations.\n" ++
       indent ++ "Manual Cost Formula: 0 (No additional cost for cached results)\n" ++
       indent ++ "Difference Explanation: Costs depend on operation frequency and cache hit rate.\n")

/-- AggregateNode.fetch_stats (src/explain.py lines 280-297): builds the
SQL string by concatenating a literal with Relation Name, which raises a
TypeError when the attribute is missing (None); the aggregate query runs
against the user relation and may itself fail at the database. -/
def AggregateNode.fetch_stats (cat : Catalog) (json : PlanJson) (depth : ℕ) :
    Except PyError String :=
  let indent := indentOf depth
  match json.relationName with
  | none => .error (.typeError "can only concatenate str (not \x22NoneType\x22) to str")
  | some relation_name =>
    match cat.agg_counts relation_name with
    | .error e => .error e
    | .ok result =>
      let total_tuples := result.1
      let unique_groups := result.2
      let manual_cost := if json.strategy = some "Hashed" then total_tuples
        else total_tuples * unique_groups
      .ok (indent ++ "Aggregate operation on " ++ relation_name ++ ".\n" ++
           indent ++ "Manual Cost Formula: T(rel) * Number of Groups = " ++ pyShowQ manual_cost ++ "\n" ++
           indent ++ "Difference Explanation: PostgreSQL uses optimized aggregation strategies that might affect performance differently.\n")

/-- GroupNode.fetch_stats (src/explain.py lines 299-313): same string
concatenation TypeError as Aggregate; issues the distinct-count query and
then the row-count query. -/
def GroupNode.fetch_stats (cat : Catalog) (json : PlanJson) (depth : ℕ) :
    Except PyError String :=
  let indent := indentOf depth
  match json.relationName with
  | none => .error (.typeError "can only concatenate str (not \x22NoneType\x22) to str")
  | some relation_name =>
    match cat.group_distinct relation_name with
    | .error e => .error e
    | .ok num_groups =>
      match cat.group_total relation_name with
      | .error e => .error e
      | .ok num_tuples =>
        let manual_cost := num_tuples * num_groups
        .ok (indent ++ "Group by operation on " ++ relation_name ++ ".\n" ++
             indent ++ "Manual Cost Formula: T(rel) * Number of Group Columns = " ++ pyShowQ manual_cost ++ "\n" ++
             indent ++ "Difference Explanation: PostgreSQL incorporates advanced optimizations for group by operations.\n")

/-- UniqueNode.fetch_stats (src/explain.py lines 315-327): same string
concatenation TypeError; the distinct query may fail at the database. -/
def UniqueNode.fetch_stats (cat : Catalog) (json : PlanJson) (depth : ℕ) :
    Except PyError String :=
  let indent := indentOf depth
  match json.relationName with
  | none => .error (.typeError "can only concatenate str (not \x22NoneType\x22) to str")
  | some relation_name =>
    match cat.unique_distinct relation_name with
    | .error e => .error e
    | .ok unique_count =>
      let manual_cost := unique_count
      .ok (indent ++ "Unique operation to remove duplicates from " ++ relation_name ++ ".\n" ++
           indent ++ "Manual Cost Formula: Number of Unique Rows = " ++ pyShowQ manual_cost ++ "\n" ++
           indent ++ "Difference Explanation: PostgreSQL may use different strategies for de-duplication based on the query plan.\n")

/-- BitmapAndNode.fetch_stats (src/explain.py lines 329-336). -/
def BitmapAndNode.fetch_stats (depth : ℕ) : Except PyError String :=
  let indent := indentOf depth
  .ok (indent ++ "Bitmap AND operation is generally negligible in cost.\n" ++
       indent ++ "Manual Cost Formula: Negligible.\n" ++
       indent ++ "Difference Explanation: PostgreSQL manages bitmap operations in memory, rarely requiring additional computation.\n")

/-- BitmapOrNode.fetch_stats (src/explain.py lines 338-345). -/
def BitmapOrNode.fetch_stats (depth : ℕ) : Except PyError String :=
  let indent := indentOf depth
  .ok (indent ++ "Bitmap OR operation is generally negligible in cost.\n" ++
       indent ++ "Manual Cost Formula: Negligible.\n" ++
       indent ++ "Difference Explanation: PostgreSQL processes these operations with minimal overhead.\n")

/-- AppendNode.fetch_stats (src/explain.py lines 347-356): sums the
Total Cost of the constructed children. -/
def AppendNode.fetch_stats (children : PForest) (depth : ℕ) : Except PyError String :=
  let indent := indentOf depth
  let child_costs := children.childTotalCosts
  let total_cost := child_costs.sum
  .ok (indent ++ "Append Node combines results of sub-plans.\n" ++
       indent ++ "Manual Cost Formula: Sum of child costs = " ++ pyShowQ total_cost ++ "\n" ++
       indent ++ "Difference Explanation: PostgreSQL dynamically computes the cost based on child plans, possibly including additional overhead.\n")

/-- MergeAppendNode.fetch_stats (src/explain.py lines 358-369): like
Append plus a merge cost of len(self.children) * log2(len(self.children)),
guarded by the truthiness of self.children (0 when there are no
children). -/
def MergeAppendNode.fetch_stats (log2f : ℕ → ℚ) (children : PForest) (depth : ℕ) :
    Except PyError String :=
  let indent := indentOf depth
  let child_costs := children.childTotalCosts
  let total_cost := child_costs.sum
  let merge_cost := if children.isNil then 0
    else (children.length : ℚ) * log2f children.length
  let total_cost := total_cost + merge_cost
  .ok (indent ++ "Merge Append Node combines sorted results of child operations, preserving their order. Includes cost of merging.\n" ++
       indent ++ "Manual Cost Formula: Sum of child costs + Merge cost = " ++ pyShowQ total_cost ++ "\n" ++
       indent ++ "Difference Explanation: PostgreSQL also considers the complexity of maintaining heap structures during merging.\n")

/-- The node_registry dispatch: node classes are selected at construction
by the exact Node Type string; every unregistered (or, for nodes
constructed directly, missing) type falls back to the base class
Node.fetch_stats, which returns the empty string. -/
def fetchStats (cat : Catalog) (log2f : ℕ → ℚ) (json : PlanJson)
    (children : PForest) (depth : ℕ) : Except PyError String :=
  match json.nodeType with
  | some "Seq Scan" => SeqScanNode.fetch_stats cat json depth
  | some "Index Scan" => IndexScanNode.fetch_stats cat json depth
  | some "Bitmap Index Scan" => BitmapIndexScanNode.fetch_stats cat json depth
  | some "Bitmap Heap Scan" => BitmapHeapScanNode.fetch_stats cat json depth
  | some "Nested Loop Join" => NestedLoopJoinNode.fetch_stats json depth
  | some "Merge Join" => MergeJoinNode.fetch_stats json depth
  | some "Hash" => HashNode.fetch_stats json depth
  | some "Hash Join" => HashJoinNode.fetch_stats json depth
  | some "Gather" => GatherNode.fetch_stats json depth
  | some "Gather Merge" => GatherMergeNode.fetch_stats log2f json depth
  | some "Sort" => SortNode.fetch_stats json depth
  | some "Incremental Sort" => IncrementalSortNode.fetch_stats cat json depth
  | some "Limit" => LimitNode.fetch_stats cat json depth
  | some "Materialize" => MaterializeNode.fetch_stats cat json depth
  | some "Memoize" => MemoizeNode.fetch_stats depth
  | some "Aggregate" => AggregateNode.fetch_stats cat json depth
  | some "Group" => GroupNode.fetch_stats cat json depth
  | some "Unique" => UniqueNode.fetch_stats cat json depth
  | some "Bitmap And" => BitmapAndNode.fetch_stats depth
  | some "Bitmap Or" => BitmapOrNode.fetch_stats depth
  | some "Append" => AppendNode.fetch_stats children depth
  | some "Merge Append" => MergeAppendNode.fetch_stats log2f children depth
  | _ => .ok ""

/-- The three header lines of Node.explain (src/explain.py lines 50-54):
a missing Node Type renders as the default Unknown, the cost, row and
width attributes are rendered directly (a missing one prints None). -/
def headerLines (json : PlanJson) (depth : ℕ) : String :=
  let indent := indentOf depth
  indent ++ "Node Type: " ++ (json.nodeType.getD "Unknown") ++ "\n" ++
  indent ++ "Cost: Startup " ++ pyShowOptQ json.startupCost ++ ", Total " ++
    pyShowOptQ json.totalCost ++ "\n" ++
  indent ++ "Rows: " ++ pyShowOptQ json.planRows ++ ", Width: " ++
    pyShowOptQ json.planWidth ++ "\n"

/-- Node.explain (src/explain.py lines 50-58) over a forest of
constructed nodes: each node contributes its header lines, then its
fetch_stats text, then the explanations of its children at depth + 1,
and a sibling chain concatenates in order.  An exception anywhere
propagates and aborts the whole walk, exactly as in Python. -/
def explainForest (cat : Catalog) (log2f : ℕ → ℚ) : PForest → ℕ → Except PyError String
  | .nil, _ => .ok ""
  | .cons json children rest, depth =>
    match fetchStats cat log2f json children depth with
    | .error e => .error e
    | .ok fs =>
      match explainForest cat log2f children (depth + 1) with
      | .error e => .error e
      | .ok kidsText =>
        match explainForest cat log2f rest depth with
        | .error e => .error e
        | .ok restText => .ok (headerLines json depth ++ fs ++ kidsText ++ restText)

/-- node.explain(depth) for one constructed node (its json together with
its constructed children). -/
def explainNode (cat : Catalog) (log2f : ℕ → ℚ) (json : PlanJson)
    (children : PForest) (depth : ℕ) : Except PyError String :=
  explainForest cat log2f (.cons json children .nil) depth

/-- The Node Type access in create_node (src/explain.py line 378): plain
dictionary subscription, a KeyError when the key is missing. -/
def checkNode (j : PlanJson) : Except PyError Unit :=
  match j.nodeType with
  | none => .error (.keyError "Node Type")
  | some _ => .ok ()

mutual

/-- Construction of the children of one node from its raw Plans field
(the work-list loop of parse_and_explain, src/explain.py lines 382-389):
no Plans key means no children. -/
def buildChildForest : Option (List PlanJson) → Except PyError PForest
  | none => .ok .nil
  | some ps => buildSiblingForest ps

/-- Construction of a list of sibling sub-plans in source order: each is
checked for its Node Type (create_node), its own children are built, and
it is chained before the following siblings. -/
def buildSiblingForest : List PlanJson → Except PyError PForest
  | [] => .ok .nil
  | .mk a plansOpt :: ps =>
    match checkNode (.mk a plansOpt) with
    | .error e => .error e
    | .ok _ =>
      match buildChildForest plansOpt with
      | .error e => .error e
      | .ok kids =>
        match buildSiblingForest ps with
        | .error e => .error e
        | .ok rest => .ok (.cons (.mk a plansOpt) kids rest)

end

/-- The top-level value returned by EXPLAIN (ANALYZE, BUFFERS, FORMAT
JSON): each element of the returned json array is an object whose Plan
key (optional, like every dictionary key) holds the root plan object. -/
structure QepJson where
  plan : Option PlanJson

/-- parse_and_explain (src/explain.py lines 376-390): subscripts the
query result with Plan (KeyError when absent), constructs the root via
create_node, expands the tree with the explicit work list, and only then
renders it from the root at depth 0. -/
def parseAndExplain (cat : Catalog) (log2f : ℕ → ℚ) (qepJson : QepJson) :
    Except PyError String :=
  match qepJson.plan with
  | none => .error (.keyError "Plan")
  | some planJson =>
    match checkNode planJson with
    | .error e => .error e
    | .ok _ =>
      match buildChildForest planJson.plans with
      | .error e => .error e
      | .ok kids => explainNode cat log2f planJson kids 0

/-- The message formatting of the except-clauses of analyze_query
(src/explain.py lines 399-404): a psycopg2.DatabaseError is caught first
(psycopg2.ProgrammingError is a subclass of it, so that branch is dead),
and every other exception is caught by the generic handler; Python
renders a KeyError as its quoted key. -/
def pyErrorMessage : PyError → String
  | .dbError msg => "Database error: " ++ msg
  | .keyError key => "An error occurred: \x27" ++ key ++ "\x27"
  | .typeError msg => "An error occurred: " ++ msg
  | .indexError msg => "An error occurred: " ++ msg

/-- The possible returns of analyze_query: the implicit None when the
function falls through without returning (falsy qep), the pair
(qep, explanation) on success, and the pair (None, message) from an
except branch. -/
inductive AnalyzeResult where
  | noneResult
  | pair (qep : List QepJson) (explanation : String)
  | errPair (msg : String)

/-- analyze_query (src/explain.py lines 392-404).  Its interaction with
the database is abstracted as the argument qepResult: the outcome of
execute_explain, either an exception or the fetched json value (None or
a json array; both None and the empty array are falsy).  When qep is
truthy the function explains qep[0] and returns the pair; when it is
falsy it falls through and implicitly returns None; an exception caught
anywhere yields the (None, message) pair. -/
def analyzeQuery (cat : Catalog) (log2f : ℕ → ℚ)
    (qepResult : Except PyError (Option (List QepJson))) : AnalyzeResult :=
  match qepResult with
  | .error e => .errPair (pyErrorMessage e)
  | .ok none => .noneResult
  | .ok (some []) => .noneResult
  | .ok (some (q0 :: qs)) =>
    match parseAndExplain cat log2f q0 with
    | .error e => .errPair (pyErrorMessage e)
    | .ok explanation =>
      .pair (q0 :: qs) ("Query Plan Explanation:\n" ++ explanation)

/-- The manual Index Scan cost the specification prescribes, following
its words: tuples read T(R) divided by the distinct key values V(R, a).
This definition follows the spec table, not the source, and exists only
to be compared with the cost the source computes (claim C4). -/
def specIndexScanManualCost (tuplesRead distinctValues : ℚ) : ℚ :=
  tuplesRead / distinctValues

/-- Projection of a successful explanation; used to name concrete output
strings without writing them out as literals. -/
def exOk : Except PyError String → String
  | .ok s => s
  | .error _ => ""

/-- An arbitrary log2 implementation for concrete examples; the claims
about the merge-overhead guard hold for every implementation. -/
def zeroLog2 : ℕ → ℚ := fun _ => 0

/-- A catalog with no user statistics: the system-catalog lookups find no
rows, and the ad-hoc queries against user tables fail at the database. -/
def trivialCatalog : Catalog :=
  ⟨fun _ => none,
   fun _ => none,
   fun _ => .ok none,
   fun _ => .ok none,
   fun _ => .ok none,
   fun _ => .error (.dbError "relation does not exist"),
   fun _ => .error (.dbError "relation does not exist"),
   fun _ => .error (.dbError "relation does not exist"),
   fun _ => .error (.dbError "syntax error"),
   fun _ _ => none⟩

/-- A Hash node json used to build two structurally distinct nodes that
share the NodeIdentity triple (Node Type, Plan Rows, Total Cost). -/
def dupAttrs : Attrs :=
  ⟨some "Hash", some 0, some 7, some 4, some 1, none, none, none, none, none, none, none⟩

def dupJson : PlanJson := .mk dupAttrs none

/-- Seq Scan children over relations t1 and t2 whose plan-reported Total
Costs (100 and 200) differ from the catalog page counts (10 and 20). -/
def seqScanT1 : PlanJson :=
  .mk ⟨some "Seq Scan", some 0, some 100, some 50, some 4, some "t1",
       none, none, none, none, none, none⟩ none

def seqScanT2 : PlanJson :=
  .mk ⟨some "Seq Scan", some 0, some 200, some 60, some 4, some "t2",
       none, none, none, none, none, none⟩ none

/-- A Hash Join root whose two Seq Scan children scan t1 and t2. -/
def hashJoinOverT1T2 : PlanJson :=
  .mk ⟨some "Hash Join", some 0, some 450, some 50, some 8, none, none,
       none, none, none, some "(t1.k = t2.k)", none⟩
     (some [seqScanT1, seqScanT2])

/-- A catalog in which relation t1 has 10 pages and t2 has 20 pages. -/
def pagesCatalog : Catalog :=
  ⟨fun s => if s = "t1" then some (1000, 10)
            else if s = "t2" then some (2000, 20) else none,
   fun _ => none,
   fun _ => .ok none,
   fun _ => .ok none,
   fun _ => .ok none,
   fun _ => .error (.dbError "relation does not exist"),
   fun _ => .error (.dbError "relation does not exist"),
   fun _ => .error (.dbError "relation does not exist"),
   fun _ => .error (.dbError "syntax error"),
   fun _ _ => none⟩

/-- One unfolding of the explanation of a nonempty forest, as a plain
equality (the definition is structural, so this is definitional). -/
theorem explainForest_cons (cat : Catalog) (log2f : ℕ → ℚ) (json : PlanJson)
    (children rest : PForest) (depth : ℕ) :
    explainForest cat log2f (.cons json children rest) depth =
      match fetchStats cat log2f json children depth with
      | .error e => .error e
      | .ok fs =>
        match explainForest cat log2f children (depth + 1) with
        | .error e => .error e
        | .ok kidsText =>
          match explainForest cat log2f rest depth with
          | .error e => .error e
          | .ok restText => .ok (headerLines json depth ++ fs ++ kidsText ++ restText) :=
  rfl

theorem explainForest_nil (cat : Catalog) (log2f : ℕ → ℚ) (depth : ℕ) :
    explainForest cat log2f .nil depth = .ok "" := rfl

/-- The successful case of one node of the walk: header lines, then
fetch_stats text, then children, then the following siblings. -/
theorem explainForest_cons_ok (cat : Catalog) (log2f : ℕ → ℚ) (json : PlanJson)
    (children rest : PForest) (depth : ℕ) (fs kidsText restText : String)
    (hf : fetchStats cat log2f json children depth = .ok fs)
    (hk : explainForest cat log2f children (depth + 1) = .ok kidsText)
    (hr : explainForest cat log2f rest depth = .ok restText) :
    explainForest cat log2f (.cons json children rest) depth =
      .ok (headerLines json depth ++ fs ++ kidsText ++ restText) := by
  rw [explainForest_cons, hf, hk, hr]

/-- An exception in fetch_stats propagates out of the walk of the whole
forest. -/
theorem explainForest_cons_fetch_error (cat : Catalog) (log2f : ℕ → ℚ)
    (json : PlanJson) (children rest : PForest) (depth : ℕ) (e : PyError)
    (hf : fetchStats cat log2f json children depth = .error e) :
    explainForest cat log2f (.cons json children rest) depth = .error e := by
  rw [explainForest_cons, hf]

set_option maxRecDepth 100000 in
/-- Claim C1, counterexample.  The claim says a second node sharing the
NodeIdentity triple contributes the empty string during the walk, so a
two-node tree of identical Hash nodes would have to render exactly the
same text as the single-node tree.  In the code there is no visited set
at all: the duplicate child at depth 1 contributes its own full nonempty
rendering, so the two outputs differ. -/
theorem C1_counterexample :
    exOk (explainNode trivialCatalog zeroLog2 dupJson (.cons dupJson .nil .nil) 0) ≠
      exOk (explainNode trivialCatalog zeroLog2 dupJson .nil 0) ∧
    exOk (explainNode trivialCatalog zeroLog2 dupJson .nil 1) ≠ "" := by
  with_unfolding_all decide

/-- Claim C1, amended: Node.explain performs no de-duplication.  Every
node of the walk, including a child whose (Node Type, Plan Rows,
Total Cost) triple equals its parent's, contributes its full standalone
rendering verbatim to the parent's output, immediately after the parent's
header lines and fetch_stats text. -/
theorem C1_no_dedup (cat : Catalog) (log2f : ℕ → ℚ) (j cj : PlanJson)
    (ck : PForest) (d : ℕ) (fs sc : String)
    (_hty : j.nodeType = cj.nodeType) (_hrows : j.planRows = cj.planRows)
    (_hcost : j.totalCost = cj.totalCost)
    (hf : fetchStats cat log2f j (.cons cj ck .nil) d = .ok fs)
    (hc : explainNode cat log2f cj ck (d + 1) = .ok sc) :
    explainNode cat log2f j (.cons cj ck .nil) d =
      .ok (headerLines j d ++ fs ++ sc) := by
  unfold explainNode at hc ⊢
  have h := explainForest_cons_ok cat log2f j (.cons cj ck .nil) .nil d fs sc ""
    hf hc (explainForest_nil cat log2f d)
  simpa using h

/-- Witness for C1_no_dedup at a concrete duplicate pair of Hash nodes. -/
theorem C1_no_dedup_witness :
    explainNode trivialCatalog zeroLog2 dupJson (.cons dupJson .nil .nil) 0 =
      .ok (headerLines dupJson 0 ++
           exOk (fetchStats trivialCatalog zeroLog2 dupJson (.cons dupJson .nil .nil) 0) ++
           exOk (explainNode trivialCatalog zeroLog2 dupJson .nil 1)) :=
  C1_no_dedup trivialCatalog zeroLog2 dupJson dupJson .nil 0 _ _ rfl rfl rfl
    (by with_unfolding_all rfl) (by with_unfolding_all rfl)

set_option maxRecDepth 100000 in
/-- Claim C2, counterexample.  With Seq Scan children over relations with
page counts 10 and 20 (visible in the catalog) but plan-reported Total
Costs 100 and 200, the Hash Join manual cost the code computes is
3·100 + 3·200 = 900, not the 3×(10+20) = 90 the claim requires: the
formula reads the children's Total Cost fields, never their block
counts. -/
theorem C2_counterexample :
    pagesCatalog.pg_class "t1" = some (1000, 10) ∧
    pagesCatalog.pg_class "t2" = some (2000, 20) ∧
    HashJoinNode.manual_cost hashJoinOverT1T2 = .ok 900 ∧
    (900 : ℚ) ≠ 3 * (10 + 20) := by
  with_unfolding_all decide

/-- Claim C2, amended: for every Hash Join node with at least two raw
sub-plans whose Total Cost fields are present, the manual cost is
3 · (left Total Cost) + 3 · (right Total Cost) — the children's
plan-reported Total Costs, not catalog block counts.  It equals 90
exactly when those two Total Costs are 10 and 20. -/
theorem C2_hash_join_uses_total_costs (a la ra : Attrs)
    (lp rp : Option (List PlanJson)) (rest : List PlanJson) (lc rc : ℚ)
    (hl : la.totalCost = some lc) (hr : ra.totalCost = some rc) :
    HashJoinNode.manual_cost (.mk a (some (.mk la lp :: .mk ra rp :: rest))) =
      .ok (3 * lc + 3 * rc) := by
  simp [HashJoinNode.manual_cost, PlanJson.plans, PlanJson.totalCost,
        PlanJson.attrs, hl, hr]

/-- Seq Scan children whose Total Costs are exactly 10 and 20. -/
def seqScanCost10 : PlanJson :=
  .mk ⟨some "Seq Scan", some 0, some 10, some 50, some 4, some "t1",
       none, none, none, none, none, none⟩ none

def seqScanCost20 : PlanJson :=
  .mk ⟨some "Seq Scan", some 0, some 20, some 60, some 4, some "t2",
       none, none, none, none, none, none⟩ none

/-- Witness for C2_hash_join_uses_total_costs: child Total Costs 10 and
20 give manual cost 90. -/
theorem C2_hash_join_witness :
    HashJoinNode.manual_cost
      (.mk ⟨some "Hash Join", some 0, some 450, some 50, some 8, none, none,
            none, none, none, none, none⟩ (some [seqScanCost10, seqScanCost20])) =
      .ok 90 := by
  have h := C2_hash_join_uses_total_costs
    ⟨some "Hash Join", some 0, some 450, some 50, some 8, none, none,
     none, none, none, none, none⟩
    ⟨some "Seq Scan", some 0, some 10, some 50, some 4, some "t1",
     none, none, none, none, none, none⟩
    ⟨some "Seq Scan", some 0, some 20, some 60, some 4, some "t2",
     none, none, none, none, none, none⟩
    none none [] 10 20 rfl rfl
  exact h.trans (by with_unfolding_all decide)

/-- Registry dispatch for an Index Scan node. -/
theorem fetchStats_indexScan (cat : Catalog) (log2f : ℕ → ℚ) (j : PlanJson)
    (k : PForest) (d : ℕ) (hty : j.nodeType = some "Index Scan") :
    fetchStats cat log2f j k d = IndexScanNode.fetch_stats cat j d := by
  unfold fetchStats
  rw [hty]
  with_unfolding_all rfl

/-- Registry dispatch for an Aggregate node. -/
theorem fetchStats_aggregate (cat : Catalog) (log2f : ℕ → ℚ) (j : PlanJson)
    (k : PForest) (d : ℕ) (hty : j.nodeType = some "Aggregate") :
    fetchStats cat log2f j k d = AggregateNode.fetch_stats cat j d := by
  unfold fetchStats
  rw [hty]
  with_unfolding_all rfl

/-- Registry dispatch for a Seq Scan node. -/
theorem fetchStats_seqScan (cat : Catalog) (log2f : ℕ → ℚ) (j : PlanJson)
    (k : PForest) (d : ℕ) (hty : j.nodeType = some "Seq Scan") :
    fetchStats cat log2f j k d = SeqScanNode.fetch_stats cat j d := by
  unfold fetchStats
  rw [hty]
  with_unfolding_all rfl

/-- A node whose json has no Node Type at all dispatches to the base
class behaviour, which contributes the empty string. -/
theorem fetchStats_noType (cat : Catalog) (log2f : ℕ → ℚ) (j : PlanJson)
    (k : PForest) (d : ℕ) (hty : j.nodeType = none) :
    fetchStats cat log2f j k d = .ok "" := by
  unfold fetchStats
  rw [hty]

/-- An Index Scan with truthy Index Name and Relation Name whose index
has no pg_stat_user_indexes row degrades to the empty string, without
raising. -/
theorem indexScan_no_stats (cat : Catalog) (j : PlanJson) (d : ℕ) (i t : String)
    (hi : j.indexName = some i) (ht : j.relationName = some t)
    (hie : i.isEmpty = false) (hte : t.isEmpty = false)
    (hstats : cat.pg_stat_user_indexes i = none) :
    IndexScanNode.fetch_stats cat j d = .ok "" := by
  simp [IndexScanNode.fetch_stats, hi, ht, hie, hte, hstats]

/-- An Aggregate node with no Relation Name raises a TypeError while
concatenating the SQL string. -/
theorem aggregate_no_relation (cat : Catalog) (j : PlanJson) (d : ℕ)
    (h : j.relationName = none) :
    AggregateNode.fetch_stats cat j d =
      .error (.typeError "can only concatenate str (not \x22NoneType\x22) to str") := by
  simp [AggregateNode.fetch_stats, h]

/-- An Index Scan node with statistics rows json, for concrete runs. -/
def idxScanJson : PlanJson :=
  .mk ⟨some "Index Scan", some 0, some 12, some 3, some 4, some "t1",
       some "i1", none, none, none, none, none⟩ none

/-- An Aggregate node json with no Relation Name. -/
def aggNoRelJson : PlanJson :=
  .mk ⟨some "Aggregate", some 0, some 5, some 1, some 8, none, none,
       none, none, none, none, none⟩ none

set_option maxRecDepth 100000 in
/-- Claim C3, counterexample.  An Index Scan whose index has no catalog
row renders the empty string — its formula line carries no explicit
not-available marker, the marker never occurs in the contribution — and
an Aggregate node whose required statistic (the relation name for the
statistics query) is unavailable raises a TypeError that aborts the
whole explanation instead of degrading locally. -/
theorem C3_counterexample :
    IndexScanNode.fetch_stats trivialCatalog idxScanJson 0 = .ok "" ∧
    ¬ ("not available".data <:+:
        (exOk (IndexScanNode.fetch_stats trivialCatalog idxScanJson 0)).data) ∧
    explainNode trivialCatalog zeroLog2 aggNoRelJson .nil 0 =
      .error (.typeError "can only concatenate str (not \x22NoneType\x22) to str") := by
  with_unfolding_all decide

/-- Claim C3, amended.  When statistics are unavailable the behaviour is
split by node class: an Index Scan whose index has no catalog row
degrades to the empty string (not to an explicit not-available marker)
and the walk continues into its children; but an Aggregate node whose
Relation Name is missing raises a TypeError, and that exception
propagates out of the walk, aborting the whole explanation. -/
theorem C3_degrade_or_raise :
    (∀ (cat : Catalog) (j : PlanJson) (d : ℕ) (i t : String),
       j.indexName = some i → j.relationName = some t →
       i.isEmpty = false → t.isEmpty = false →
       cat.pg_stat_user_indexes i = none →
       IndexScanNode.fetch_stats cat j d = .ok "") ∧
    (∀ (cat : Catalog) (log2f : ℕ → ℚ) (j cj : PlanJson) (ck : PForest)
       (d : ℕ) (i t : String) (sc : String),
       j.nodeType = some "Index Scan" →
       j.indexName = some i → j.relationName = some t →
       i.isEmpty = false → t.isEmpty = false →
       cat.pg_stat_user_indexes i = none →
       explainNode cat log2f cj ck (d + 1) = .ok sc →
       explainNode cat log2f j (.cons cj ck .nil) d = .ok (headerLines j d ++ sc)) ∧
    (∀ (cat : Catalog) (j : PlanJson) (d : ℕ),
       j.relationName = none →
       AggregateNode.fetch_stats cat j d =
         .error (.typeError "can only concatenate str (not \x22NoneType\x22) to str")) ∧
    (∀ (cat : Catalog) (log2f : ℕ → ℚ) (j : PlanJson) (k : PForest) (d : ℕ),
       j.nodeType = some "Aggregate" → j.relationName = none →
       explainNode cat log2f j k d =
         .error (.typeError "can only concatenate str (not \x22NoneType\x22) to str")) := by
  refine ⟨fun cat j d i t hi ht hie hte hstats =>
            indexScan_no_stats cat j d i t hi ht hie hte hstats,
          ?_, fun cat j d h => aggregate_no_relation cat j d h, ?_⟩
  · intro cat log2f j cj ck d i t sc hty hi ht hie hte hstats hc
    have hf : fetchStats cat log2f j (.cons cj ck .nil) d = .ok "" :=
      (fetchStats_indexScan cat log2f j (.cons cj ck .nil) d hty).trans
        (indexScan_no_stats cat j d i t hi ht hie hte hstats)
    unfold explainNode at hc ⊢
    have h := explainForest_cons_ok cat log2f j (.cons cj ck .nil) .nil d "" sc ""
      hf hc (explainForest_nil cat log2f d)
    simpa using h
  · intro cat log2f j k d hty hrel
    have hf := (fetchStats_aggregate cat log2f j k d hty).trans
      (aggregate_no_relation cat j d hrel)
    unfold explainNode
    exact explainForest_cons_fetch_error cat log2f j k .nil d _ hf

/-- Witness for C3_degrade_or_raise at concrete nodes: the Index Scan
over i1 with an empty catalog renders the empty string and its child is
still rendered; the Aggregate without a relation aborts the whole walk
with a TypeError. -/
theorem C3_degrade_or_raise_witness :
    IndexScanNode.fetch_stats trivialCatalog idxScanJson 0 = .ok "" ∧
    explainNode trivialCatalog zeroLog2 idxScanJson (.cons dupJson .nil .nil) 0 =
      .ok (headerLines idxScanJson 0 ++
           exOk (explainNode trivialCatalog zeroLog2 dupJson .nil 1)) ∧
    AggregateNode.fetch_stats trivialCatalog aggNoRelJson 0 =
      .error (.typeError "can only concatenate str (not \x22NoneType\x22) to str") ∧
    explainNode trivialCatalog zeroLog2 aggNoRelJson .nil 0 =
      .error (.typeError "can only concatenate str (not \x22NoneType\x22) to str") :=
  ⟨C3_degrade_or_raise.1 trivialCatalog idxScanJson 0 "i1" "t1" rfl rfl rfl rfl rfl,
   C3_degrade_or_raise.2.1 trivialCatalog zeroLog2 idxScanJson dupJson .nil 0 "i1" "t1" _
     rfl rfl rfl rfl rfl rfl (by with_unfolding_all rfl),
   C3_degrade_or_raise.2.2.1 trivialCatalog aggNoRelJson 0 rfl,
   C3_degrade_or_raise.2.2.2 trivialCatalog zeroLog2 aggNoRelJson .nil 0 rfl rfl⟩

/-- A catalog holding index statistics for i1 (3 scans, 100 tuples read)
and a distinct-value count of 5 for attribute a of t1. -/
def statsCatalog : Catalog :=
  ⟨fun _ => none,
   fun s => if s = "i1" then some (3, 100) else none,
   fun _ => .ok none,
   fun _ => .ok none,
   fun _ => .ok none,
   fun _ => .error (.dbError "relation does not exist"),
   fun _ => .error (.dbError "relation does not exist"),
   fun _ => .error (.dbError "relation does not exist"),
   fun _ => .error (.dbError "syntax error"),
   fun r a => if r = "t1" then (if a = "a" then some 5 else none) else none⟩

set_option maxRecDepth 100000 in
/-- Claim C4, counterexample.  For the Index Scan over index i1 with 100
tuples read and an available distinct count of 5 for the keyed attribute,
the code reports a manual cost of 100 — the tuples-read count alone,
printed after the label T(R) / V(R, a) — while the claimed formula
T(R)/V(R,a) gives 100/5 = 20.  No distinct-value count is ever fetched
or divided by. -/
theorem C4_counterexample :
    statsCatalog.pg_stat_user_indexes "i1" = some (3, 100) ∧
    statsCatalog.distinct_count "t1" "a" = some 5 ∧
    IndexScanNode.fetch_stats statsCatalog idxScanJson 0 =
      .ok (indentOf 0 ++ "Index \x27" ++ "i1" ++ "\x27 on table \x27" ++ "t1" ++
           "\x27 stats: scans " ++ pyShowQ 3 ++ ", tuples read " ++ pyShowQ 100 ++ ".\n" ++
           indentOf 0 ++ "Manual Cost Formula: T(R) / V(R, a) = " ++ pyShowQ 100 ++ "\n" ++
           indentOf 0 ++ "Difference Explaination: PostgreSQL optimizes index scans with cost estimates based on index selectivity, which may not be fully captured here\n") ∧
    specIndexScanManualCost 100 5 = 20 ∧
    (100 : ℚ) ≠ specIndexScanManualCost 100 5 := by
  with_unfolding_all decide

/-- Claim C4, amended: for every Index Scan node with truthy names and an
available pg_stat_user_indexes row (scans s, tuples read tr), the manual
cost the code computes and prints is tr — T(R) alone — even though the
printed label reads T(R) / V(R, a). -/
theorem C4_manual_is_tuples_read (cat : Catalog) (j : PlanJson) (d : ℕ)
    (i t : String) (s tr : ℚ)
    (hi : j.indexName = some i) (ht : j.relationName = some t)
    (hie : i.isEmpty = false) (hte : t.isEmpty = false)
    (hstats : cat.pg_stat_user_indexes i = some (s, tr)) :
    IndexScanNode.fetch_stats cat j d =
      .ok (indentOf d ++ "Index \x27" ++ i ++ "\x27 on table \x27" ++ t ++
           "\x27 stats: scans " ++ pyShowQ s ++ ", tuples read " ++ pyShowQ tr ++ ".\n" ++
           indentOf d ++ "Manual Cost Formula: T(R) / V(R, a) = " ++ pyShowQ tr ++ "\n" ++
           indentOf d ++ "Difference Explaination: PostgreSQL optimizes index scans with cost estimates based on index selectivity, which may not be fully captured here\n") := by
  simp [IndexScanNode.fetch_stats, hi, ht, hie, hte, hstats]

/-- Witness for C4_manual_is_tuples_read at the concrete catalog. -/
theorem C4_manual_is_tuples_read_witness :
    IndexScanNode.fetch_stats statsCatalog idxScanJson 0 =
      .ok (indentOf 0 ++ "Index \x27" ++ "i1" ++ "\x27 on table \x27" ++ "t1" ++
           "\x27 stats: scans " ++ pyShowQ 3 ++ ", tuples read " ++ pyShowQ 100 ++ ".\n" ++
           indentOf 0 ++ "Manual Cost Formula: T(R) / V(R, a) = " ++ pyShowQ 100 ++ "\n" ++
           indentOf 0 ++ "Difference Explaination: PostgreSQL optimizes index scans with cost estimates based on index selectivity, which may not be fully captured here\n") :=
  C4_manual_is_tuples_read statsCatalog idxScanJson 0 "i1" "t1" 3 100
    rfl rfl rfl rfl (by with_unfolding_all rfl)

/-- Merge Join children whose Total Costs are 2 and 2. -/
def mjChildA : PlanJson :=
  .mk ⟨some "Sort", some 0, some 2, some 5, some 4, none, none, none,
       none, none, none, none⟩ none

def mjChildB : PlanJson :=
  .mk ⟨some "Sort", some 0, some 2, some 5, some 4, none, none, none,
       none, none, none, none⟩ none

/-- A Merge Join whose two children report Total Cost 2 each. -/
def mergeJoinSmall : PlanJson :=
  .mk ⟨some "Merge Join", some 0, some 9, some 5, some 8, none, none,
       none, none, none, none, none⟩ (some [mjChildA, mjChildB])

set_option maxRecDepth 100000 in
/-- Claim C5, counterexample.  With child Total Costs 2 and 2 the code
computes (2+2)·1.5 = 6, not the 3×(2+2) = 12 the claim states: the
multiplier in the source is 1.5, not 3. -/
theorem C5_counterexample :
    MergeJoinNode.manual_cost mergeJoinSmall = .ok 6 ∧
    (6 : ℚ) ≠ 3 * (2 + 2) := by
  with_unfolding_all decide

/-- Claim C5, amended: for every Merge Join node with at least two raw
sub-plans whose Total Costs are present, the manual cost is
(left_cost + right_cost) · 3/2, the float 1.5 of the source — not a
multiplier of 3. -/
theorem C5_merge_join_multiplier (a la ra : Attrs)
    (lp rp : Option (List PlanJson)) (rest : List PlanJson) (lc rc : ℚ)
    (hl : la.totalCost = some lc) (hr : ra.totalCost = some rc) :
    MergeJoinNode.manual_cost (.mk a (some (.mk la lp :: .mk ra rp :: rest))) =
      .ok ((lc + rc) * (3 / 2)) := by
  simp [MergeJoinNode.manual_cost, PlanJson.plans, PlanJson.totalCost,
        PlanJson.attrs, hl, hr]

/-- Witness for C5_merge_join_multiplier: Total Costs 2 and 2 give 6. -/
theorem C5_merge_join_multiplier_witness :
    MergeJoinNode.manual_cost mergeJoinSmall = .ok 6 := by
  have h := C5_merge_join_multiplier
    ⟨some "Merge Join", some 0, some 9, some 5, some 8, none, none,
     none, none, none, none, none⟩
    ⟨some "Sort", some 0, some 2, some 5, some 4, none, none, none,
     none, none, none, none⟩
    ⟨some "Sort", some 0, some 2, some 5, some 4, none, none, none,
     none, none, none, none⟩
    none none [] 2 2 rfl rfl
  exact h.trans (by with_unfolding_all decide)

/-- Claim C6: when the top-level plan object has no Node Type key,
create_node raises a KeyError, which the generic except branch of
analyze_query catches; the call returns the single error pair carrying
the rendered message, never a partial tree and never an uncaught
exception (the result is one of the AnalyzeResult values by
construction). -/
theorem C6_malformed_plan (cat : Catalog) (log2f : ℕ → ℚ) (j : PlanJson)
    (qs : List QepJson) (h : j.nodeType = none) :
    analyzeQuery cat log2f (.ok (some (⟨some j⟩ :: qs))) =
      .errPair "An error occurred: \x27Node Type\x27" := by
  simp [analyzeQuery, parseAndExplain, checkNode, pyErrorMessage, h]

/-- Witness for C6_malformed_plan: a plan object with no attributes at
all. -/
theorem C6_malformed_plan_witness :
    analyzeQuery trivialCatalog zeroLog2 (.ok (some [⟨some PlanJson.empty⟩])) =
      .errPair "An error occurred: \x27Node Type\x27" :=
  C6_malformed_plan trivialCatalog zeroLog2 PlanJson.empty [] rfl

/-- A Seq Scan node json with no Relation Name and no cost or row
attributes. -/
def seqNoRelJson : PlanJson :=
  .mk ⟨some "Seq Scan", none, none, none, none, none, none, none, none,
       none, none, none⟩ none

set_option maxRecDepth 100000 in
/-- Claim C7, counterexample.  Rendering a node with every attribute
missing does not raise, but the missing startup cost, total cost, rows
and width attributes are rendered as the literal text None — not as the
claimed Unknown/unavailable markers (the word unavailable occurs nowhere
in the output) — and a Seq Scan without a Relation Name contributes the
empty string rather than an explicit unavailable cost line. -/
theorem C7_counterexample :
    explainNode trivialCatalog zeroLog2 PlanJson.empty .nil 0 =
      .ok "Node Type: Unknown\nCost: Startup None, Total None\nRows: None, Width: None\n" ∧
    ¬ ("unavailable".data <:+:
        "Node Type: Unknown\nCost: Startup None, Total None\nRows: None, Width: None\n".data) ∧
    SeqScanNode.fetch_stats trivialCatalog seqNoRelJson 0 = .ok "" := by
  with_unfolding_all decide

/-- A Seq Scan with a Relation Name whose truthiness fails or whose
pg_class row is missing contributes the empty string; with no Relation
Name at all the guard fails immediately. -/
theorem seqScan_no_relation (cat : Catalog) (j : PlanJson) (d : ℕ)
    (h : j.relationName = none) :
    SeqScanNode.fetch_stats cat j d = .ok "" := by
  simp [SeqScanNode.fetch_stats, h]

/-- Claim C7, amended: rendering never raises on missing attributes, but
the markers differ from the claim: a missing Node Type renders as
Unknown, missing cost/row/width attributes render as the literal None,
and a Seq Scan missing its Relation Name contributes the empty string
(no cost line at all).  The explanation of such a leaf is exactly its
three header lines. -/
theorem C7_render_defaults :
    (∀ (cat : Catalog) (log2f : ℕ → ℚ) (d : ℕ) (j : PlanJson),
       j.nodeType = none →
       explainNode cat log2f j .nil d = .ok (headerLines j d)) ∧
    (∀ (d : ℕ) (j : PlanJson), j.nodeType = none →
       headerLines j d =
         indentOf d ++ "Node Type: " ++ "Unknown" ++ "\n" ++
         indentOf d ++ "Cost: Startup " ++ pyShowOptQ j.startupCost ++ ", Total " ++
           pyShowOptQ j.totalCost ++ "\n" ++
         indentOf d ++ "Rows: " ++ pyShowOptQ j.planRows ++ ", Width: " ++
           pyShowOptQ j.planWidth ++ "\n") ∧
    (pyShowOptQ none = "None") ∧
    (∀ (cat : Catalog) (j : PlanJson) (d : ℕ),
       j.nodeType = some "Seq Scan" → j.relationName = none →
       SeqScanNode.fetch_stats cat j d = .ok "") ∧
    (∀ (cat : Catalog) (log2f : ℕ → ℚ) (j : PlanJson) (d : ℕ),
       j.nodeType = some "Seq Scan" → j.relationName = none →
       explainNode cat log2f j .nil d = .ok (headerLines j d)) := by
  refine ⟨?_, ?_, rfl, fun cat j d _ h => seqScan_no_relation cat j d h, ?_⟩
  · intro cat log2f d j h
    have hf := fetchStats_noType cat log2f j .nil d h
    unfold explainNode
    have h2 := explainForest_cons_ok cat log2f j .nil .nil d "" "" ""
      hf (explainForest_nil cat log2f (d + 1)) (explainForest_nil cat log2f d)
    simpa using h2
  · intro d j h
    simp [headerLines, h]
  · intro cat log2f j d hty hrel
    have hf := (fetchStats_seqScan cat log2f j .nil d hty).trans
      (seqScan_no_relation cat j d hrel)
    unfold explainNode
    have h2 := explainForest_cons_ok cat log2f j .nil .nil d "" "" ""
      hf (explainForest_nil cat log2f (d + 1)) (explainForest_nil cat log2f d)
    simpa using h2

/-- Witness for C7_render_defaults at concrete nodes. -/
theorem C7_render_defaults_witness :
    explainNode trivialCatalog zeroLog2 PlanJson.empty .nil 0 =
      .ok (headerLines PlanJson.empty 0) ∧
    headerLines PlanJson.empty 0 =
      indentOf 0 ++ "Node Type: " ++ "Unknown" ++ "\n" ++
      indentOf 0 ++ "Cost: Startup " ++ pyShowOptQ none ++ ", Total " ++
        pyShowOptQ none ++ "\n" ++
      indentOf 0 ++ "Rows: " ++ pyShowOptQ none ++ ", Width: " ++
        pyShowOptQ none ++ "\n" ∧
    SeqScanNode.fetch_stats trivialCatalog seqNoRelJson 0 = .ok "" ∧
    explainNode trivialCatalog zeroLog2 seqNoRelJson .nil 0 =
      .ok (headerLines seqNoRelJson 0) :=
  ⟨C7_render_defaults.1 trivialCatalog zeroLog2 0 PlanJson.empty rfl,
   C7_render_defaults.2.1 0 PlanJson.empty rfl,
   C7_render_defaults.2.2.2.1 trivialCatalog seqNoRelJson 0 rfl rfl,
   C7_render_defaults.2.2.2.2 trivialCatalog zeroLog2 seqNoRelJson 0 rfl rfl⟩

/-- A Sort node with Sort Method quicksort and Total Cost 42. -/
def quicksort42Json : PlanJson :=
  .mk ⟨some "Sort", some 10, some 42, some 5, some 4, none, none,
       some "quicksort", none, none, none, none⟩ none

set_option maxRecDepth 100000 in
/-- Claim C8, counterexample.  For the quicksort Sort node with Total
Cost 42 the manual cost is indeed 42 (multiplier 1), equal to the
database Total Cost — yet the operator rationale line (Difference
Explanation) is still emitted: the source has no no-divergence branch,
the rationale is unconditional. -/
theorem C8_counterexample :
    SortNode.manual_cost quicksort42Json = 42 ∧
    quicksort42Json.totalCost = some 42 ∧
    ("Difference Explanation".data <:+:
      (exOk (SortNode.fetch_stats quicksort42Json 0)).data) := by
  with_unfolding_all decide

/-- Claim C8, amended: for every Sort node with Sort Method quicksort
and Total Cost 42 the manual cost is 42 (multiplier 1), and the rendered
text still ends with the unconditional Difference Explanation rationale
line even though the manual cost equals the reported Total Cost. -/
theorem C8_sort_quicksort (a : Attrs) (p : Option (List PlanJson)) (d : ℕ)
    (hm : a.sortMethod = some "quicksort") (hc : a.totalCost = some 42) :
    SortNode.manual_cost (.mk a p) = 42 ∧
    SortNode.fetch_stats (.mk a p) d =
      .ok (indentOf d ++ "Sort on relation: " ++
           pyShowOptStr (PlanJson.relationName (.mk a p)) ++ " using " ++
           "quicksort" ++ ".\n" ++
           indentOf d ++ "Manual Cost Formula: " ++ "quicksort" ++ " cost = " ++
           pyShowQ 42 ++ "\n" ++
           indentOf d ++ "Difference Explanation: PostgreSQL may adjust costs based on work memory and actual data size which are not factored into manual calculations.\n") := by
  constructor
  · unfold SortNode.manual_cost
    rw [show PlanJson.sortMethod (.mk a p) = some "quicksort" from hm,
        show PlanJson.totalCost (.mk a p) = some 42 from hc]
    with_unfolding_all rfl
  · unfold SortNode.fetch_stats SortNode.manual_cost
    rw [show PlanJson.sortMethod (.mk a p) = some "quicksort" from hm,
        show PlanJson.totalCost (.mk a p) = some 42 from hc]
    with_unfolding_all rfl

/-- Witness for C8_sort_quicksort at the concrete node. -/
theorem C8_sort_quicksort_witness :
    SortNode.manual_cost quicksort42Json = 42 ∧
    SortNode.fetch_stats quicksort42Json 0 =
      .ok (indentOf 0 ++ "Sort on relation: " ++
           pyShowOptStr (PlanJson.relationName quicksort42Json) ++ " using " ++
           "quicksort" ++ ".\n" ++
           indentOf 0 ++ "Manual Cost Formula: " ++ "quicksort" ++ " cost = " ++
           pyShowQ 42 ++ "\n" ++
           indentOf 0 ++ "Difference Explanation: PostgreSQL may adjust costs based on work memory and actual data size which are not factored into manual calculations.\n") :=
  C8_sort_quicksort
    ⟨some "Sort", some 10, some 42, some 5, some 4, none, none,
     some "quicksort", none, none, none, none⟩ none 0 rfl rfl

/-- Claim C9: analyze_query returns the bare None when execute_explain
yields a falsy value (None or the empty array) without raising; it
returns the two-element (qep, explanation) pair only when a nonempty
plan array was obtained and explained; and it returns the
(None, message) pair exactly when an exception was caught, either from
the database step or from parsing/explaining.  A caller that unpacks the
result as a pair therefore fails on the falsy-plan outcome. -/
theorem C9_analyze_query_shape (cat : Catalog) (log2f : ℕ → ℚ)
    (r : Except PyError (Option (List QepJson))) :
    (analyzeQuery cat log2f (.ok none) = .noneResult) ∧
    (analyzeQuery cat log2f (.ok (some [])) = .noneResult) ∧
    (∀ q e, analyzeQuery cat log2f r = .pair q e →
       ∃ q0 qs, r = .ok (some (q0 :: qs)) ∧ q = q0 :: qs ∧
         ∃ s, parseAndExplain cat log2f q0 = .ok s ∧
           e = "Query Plan Explanation:\n" ++ s) ∧
    (∀ m, analyzeQuery cat log2f r = .errPair m →
       (∃ er, r = .error er ∧ m = pyErrorMessage er) ∨
       (∃ q0 qs er, r = .ok (some (q0 :: qs)) ∧
          parseAndExplain cat log2f q0 = .error er ∧ m = pyErrorMessage er)) := by
  refine ⟨rfl, rfl, ?_, ?_⟩
  · intro q e h
    cases r with
    | error er => simp [analyzeQuery] at h
    | ok o =>
      cases o with
      | none => simp [analyzeQuery] at h
      | some l =>
        cases l with
        | nil => simp [analyzeQuery] at h
        | cons q0 qs =>
          cases hp : parseAndExplain cat log2f q0 with
          | error er => simp [analyzeQuery, hp] at h
          | ok s =>
            simp only [analyzeQuery, hp] at h
            cases h
            exact ⟨q0, qs, rfl, rfl, s, hp, rfl⟩
  · intro m h
    cases r with
    | error er =>
      simp only [analyzeQuery] at h
      cases h
      exact .inl ⟨er, rfl, rfl⟩
    | ok o =>
      cases o with
      | none => simp [analyzeQuery] at h
      | some l =>
        cases l with
        | nil => simp [analyzeQuery] at h
        | cons q0 qs =>
          cases hp : parseAndExplain cat log2f q0 with
          | error er =>
            simp only [analyzeQuery, hp] at h
            cases h
            exact .inr ⟨q0, qs, er, rfl, hp, rfl⟩
          | ok s => simp [analyzeQuery, hp] at h

/-- Witness for C9_analyze_query_shape: the falsy None result yields the
bare None return, and a database error yields the categorized error
pair. -/
theorem C9_analyze_query_shape_witness :
    analyzeQuery trivialCatalog zeroLog2 (.ok none) = .noneResult ∧
    ((∃ er, (Except.error (ε := PyError) (.dbError "connection lost") :
              Except PyError (Option (List QepJson))) = .error er ∧
        "Database error: connection lost" = pyErrorMessage er) ∨
     (∃ q0 qs er, (Except.error (ε := PyError) (.dbError "connection lost") :
              Except PyError (Option (List QepJson))) = .ok (some (q0 :: qs)) ∧
        parseAndExplain trivialCatalog zeroLog2 q0 = .error er ∧
        "Database error: connection lost" = pyErrorMessage er)) :=
  ⟨(C9_analyze_query_shape trivialCatalog zeroLog2 (.ok none)).1,
   (C9_analyze_query_shape trivialCatalog zeroLog2
      (.error (.dbError "connection lost"))).2.2.2
     "Database error: connection lost" rfl⟩

/-- A Gather Merge node json whose raw Plans list is present but empty. -/
def gatherMergeEmpty : PlanJson :=
  .mk ⟨some "Gather Merge", some 0, some 5, some 1, some 4, none, none,
       none, none, none, none, none⟩ (some [])

/-- Claim C10: for a Gather Merge node whose raw Plans list is empty (or
absent) and a Merge Append node with no constructed children, the
truthiness guard makes the merge-overhead term 0 without ever invoking
log2 — the statement is universally quantified over the log2
implementation — so fetch_stats returns the well-formed text with total
cost 0. -/
theorem C10_empty_merge_guard :
    (∀ (log2f : ℕ → ℚ) (a : Attrs) (p : Option (List PlanJson)) (d : ℕ),
       p = none ∨ p = some [] →
       GatherMergeNode.fetch_stats log2f (.mk a p) d =
         .ok (indentOf d ++ "Gather Merge combines sorted outputs of parallel workers preserving the order.\n" ++
              indentOf d ++ "Manual Cost Formula: Sum of child costs + Merge cost = " ++
              pyShowQ 0 ++ "\n" ++
              indentOf d ++ "Difference Explanation: PostgreSQL uses a heap that at any instant holds the next tuple from each stream, which can affect performance depending on the size of streams.\n")) ∧
    (∀ (log2f : ℕ → ℚ) (d : ℕ),
       MergeAppendNode.fetch_stats log2f .nil d =
         .ok (indentOf d ++ "Merge Append Node combines sorted results of child operations, preserving their order. Includes cost of merging.\n" ++
              indentOf d ++ "Manual Cost Formula: Sum of child costs + Merge cost = " ++
              pyShowQ 0 ++ "\n" ++
              indentOf d ++ "Difference Explanation: PostgreSQL also considers the complexity of maintaining heap structures during merging.\n")) := by
  constructor
  · intro log2f a p d h
    rcases h with rfl | rfl
    · with_unfolding_all rfl
    · with_unfolding_all rfl
  · intro log2f d
    with_unfolding_all rfl

/-- Witness for C10_empty_merge_guard at a concrete node and a concrete
log2 implementation. -/
theorem C10_empty_merge_guard_witness :
    GatherMergeNode.fetch_stats zeroLog2 gatherMergeEmpty 0 =
      .ok (indentOf 0 ++ "Gather Merge combines sorted outputs of parallel workers preserving the order.\n" ++
           indentOf 0 ++ "Manual Cost Formula: Sum of child costs + Merge cost = " ++
           pyShowQ 0 ++ "\n" ++
           indentOf 0 ++ "Difference Explanation: PostgreSQL uses a heap that at any instant holds the next tuple from each stream, which can affect performance depending on the size of streams.\n") ∧
    MergeAppendNode.fetch_stats zeroLog2 .nil 0 =
      .ok (indentOf 0 ++ "Merge Append Node combines sorted results of child operations, preserving their order. Includes cost of merging.\n" ++
           indentOf 0 ++ "Manual Cost Formula: Sum of child costs + Merge cost = " ++
           pyShowQ 0 ++ "\n" ++
           indentOf 0 ++ "Difference Explanation: PostgreSQL also considers the complexity of maintaining heap structures during merging.\n") :=
  ⟨C10_empty_merge_guard.1 zeroLog2
     ⟨some "Gather Merge", some 0, some 5, some 1, some 4, none, none,
      none, none, none, none, none⟩ (some []) 0 (Or.inr rfl),
   C10_empty_merge_guard.2 zeroLog2 0⟩

end Qep
